import Mathlib

/-!
Shallow embedding of the `maven-toolbox` resolver core (`src/lib.rs`, with the
injectable fetch/parse capabilities of `src/default_impl.rs` kept abstract as
functions), together with theorems settling the frozen claims about it.

Rust `HashMap`s are modelled as association lists whose operations mirror the
`HashMap` API: `mlookup` (get), `minsert` (insert, replacing the value when the
key is present), `mextend` (extend: insert every entry of the second map, later
entries overwriting earlier ones of the same key), `mcontains` (contains_key).
The list order stands for the map's iteration order.  Rust strings are kept as
Lean `String`s; the character-index arithmetic of `ArtifactFqn::interpolate`
is performed on the underlying character list, and the `Option` result models
the possibility of a Rust slice-bounds panic (`none` = panic).
-/

set_option autoImplicit false

namespace MavenToolbox

/-- Association-list lookup, first matching key wins (Rust `HashMap::get`). -/
def mlookup {κ α : Type} [DecidableEq κ] : List (κ × α) → κ → Option α
  | [], _ => none
  | (k', v) :: rest, k => if k' = k then some v else mlookup rest k

/-- Association-list insert: replace the value at the key when present,
append otherwise (Rust `HashMap::insert`). -/
def minsert {κ α : Type} [DecidableEq κ] : List (κ × α) → κ → α → List (κ × α)
  | [], k, v => [(k, v)]
  | (k', v') :: rest, k, v =>
    if k' = k then (k, v) :: rest else (k', v') :: minsert rest k v

/-- Association-list extend: insert every entry of the second map in order,
so later entries of the second map overwrite earlier ones of the same key
(Rust `HashMap::extend`). -/
def mextend {κ α : Type} [DecidableEq κ] (m extra : List (κ × α)) : List (κ × α) :=
  extra.foldl (fun acc kv => minsert acc kv.1 kv.2) m

/-- Association-list key-presence test (Rust `HashMap::contains_key`). -/
def mcontains {κ α : Type} [DecidableEq κ] (m : List (κ × α)) (k : κ) : Bool :=
  (mlookup m k).isSome

/-- The five-field artifact coordinate (`ArtifactFqn` in `lib.rs`). -/
structure ArtifactFqn where
  group_id : Option String
  artifact_id : Option String
  version : Option String
  packaging : Option String
  classifier : Option String
deriving DecidableEq, Repr

/-- The all-`None` coordinate (`ArtifactFqn::default()`). -/
def ArtifactFqn.empty : ArtifactFqn :=
  { group_id := none, artifact_id := none, version := none,
    packaging := none, classifier := none }

/-- Index of the first occurrence of `pat` as a contiguous sublist of `s`
(Rust `str::find` on the character level). -/
def findSub (s pat : List Char) : Option Nat :=
  match s with
  | [] => if pat = [] then some 0 else none
  | _ :: t => if pat.isPrefixOf s then some 0 else (findSub t pat).map (· + 1)

/-- Character-level transcription of the body of the closure in
`ArtifactFqn::interpolate` (`lib.rs` lines 80-89): `start` is the index of the
first `"$\x7b"`, `e` is the index of the first `"\x7d"` *relative to*
`s[start..]` but used as an absolute index, exactly as the source does.
`none` models the Rust panic of the slice `s[start+2..e]` when `start+2 > e`. -/
def interpolateVersion (s : List Char) (properties : List (String × String)) :
    Option (List Char) :=
  match findSub s ['$', '\x7b'] with
  | none => some s
  | some start =>
    match findSub (s.drop start) ['\x7d'] with
    | none => some s
    | some e =>
      if start + 2 > e then
        none
      else
        let expr := String.mk ((s.drop (start + 2)).take (e - (start + 2)))
        match mlookup properties expr with
        | some v => some (s.take start ++ v.data ++ s.drop (e + 1))
        | none => some s

/-- Transcription of `ArtifactFqn::interpolate` (`lib.rs` lines 73-94): only
the `version` field is touched; a version without `"$\x7b"` (or an absent
version) passes through unchanged via the `filter`/`or_else` pair of the
source.  `none` models a panic inside the closure. -/
def ArtifactFqn.interpolate (a : ArtifactFqn) (properties : List (String × String)) :
    Option ArtifactFqn :=
  match a.version with
  | none => some a
  | some v =>
    (interpolateVersion v.data properties).map
      (fun l => { a with version := some (String.mk l) })

/-- Transcription of `ArtifactFqn::with_packaging`. -/
def ArtifactFqn.with_packaging (a : ArtifactFqn) (packaging : String) : ArtifactFqn :=
  { a with packaging := some packaging }

/-- Transcription of `ArtifactFqn::same_ga`. -/
def ArtifactFqn.same_ga (a b : ArtifactFqn) : Bool :=
  a.group_id = b.group_id ∧ a.artifact_id = b.artifact_id

/-- Transcription of `ArtifactFqn::normalize` (`lib.rs` lines 107-117):
group/artifact/version taken from `self` when present else from `parent`,
packaging from `self` else the default; the remaining field (`classifier`)
comes from `..Default::default()`, i.e. it is `none`. -/
def ArtifactFqn.normalize (a : ArtifactFqn) (parent : ArtifactFqn)
    (default_packaging : String) : ArtifactFqn :=
  { group_id := a.group_id.orElse (fun _ => parent.group_id),
    artifact_id := a.artifact_id.orElse (fun _ => parent.artifact_id),
    version := a.version.orElse (fun _ => parent.version),
    packaging := a.packaging.orElse (fun _ => some default_packaging),
    classifier := none }

/-- Render an optional field, `"?"` when absent (the `Display` impls). -/
def optDisp (o : Option String) : String := o.getD "?"

/-- Transcription of `Display for ArtifactFqn`. -/
def ArtifactFqn.display (a : ArtifactFqn) : String :=
  optDisp a.group_id ++ ":" ++ optDisp a.artifact_id ++ ":" ++ optDisp a.version
    ++ ":" ++ optDisp a.packaging ++ ":" ++ optDisp a.classifier

/-- Reduced group+artifact key (`DependencyKey` in `lib.rs`). -/
structure DependencyKey where
  group_id : Option String
  artifact_id : Option String
deriving DecidableEq, Repr

/-- A dependency: a coordinate plus an optional scope (`Dependency`). -/
structure Dependency where
  artifact_fqn : ArtifactFqn
  scope : Option String
deriving DecidableEq, Repr

/-- Transcription of `Dependency::get_key`. -/
def Dependency.get_key (d : Dependency) : DependencyKey :=
  { group_id := d.artifact_fqn.group_id, artifact_id := d.artifact_fqn.artifact_id }

/-- Transcription of `Dependency::normalize`: normalize the coordinate against
the parent and default the scope to `"compile"`. -/
def Dependency.normalize (d : Dependency) (parent_id : ArtifactFqn)
    (default_packaging : String) : Dependency :=
  { artifact_fqn := d.artifact_fqn.normalize parent_id default_packaging,
    scope := d.scope.orElse (fun _ => some "compile") }

/-- Transcription of `Parent`. -/
structure Parent where
  artifact_fqn : ArtifactFqn
deriving DecidableEq, Repr

/-- A dependency map, standing for `HashMap<DependencyKey, Dependency>`. -/
abbrev DepMap := List (DependencyKey × Dependency)

/-- Transcription of `DependencyManagement`. -/
structure DependencyManagement where
  dependencies : DepMap
deriving DecidableEq, Repr

/-- Transcription of `Project`. -/
structure Project where
  parent : Option Parent
  artifact_fqn : ArtifactFqn
  dependency_management : Option DependencyManagement
  dependencies : DepMap
  properties : List (String × String)
deriving DecidableEq, Repr

/-- Transcription of `ErrorKind` (the commented-out variant is omitted). -/
inductive ErrorKind where
  | clientError
deriving DecidableEq, Repr

/-- Transcription of `ResolverError`. -/
structure ResolverError where
  kind : ErrorKind
  msg : String
deriving DecidableEq, Repr

/-- Transcription of `ResolverError::missing_parameter`. -/
def ResolverError.missing_parameter (fqn : ArtifactFqn) (field_name : String) :
    ResolverError :=
  { kind := .clientError,
    msg := "'" ++ field_name ++ "' is missing from " ++ fqn.display }

/-- Transcription of `ResolverError::invalid_data`. -/
def ResolverError.invalid_data (details : String) : ResolverError :=
  { kind := .clientError, msg := "Invalid input data: " ++ details }

/-- Top-level error of the embedding: a source `ResolverError`, a Rust panic
inside `interpolate`, or exhaustion of the recursion fuel that the embedding
adds to the source's unbounded `build_effective_pom` recursion. -/
inductive RErr where
  | resolver (e : ResolverError)
  | panicked
  | outOfFuel
deriving DecidableEq, Repr

/-- The two injected capabilities (`UrlFetcher` and `PomParser` traits). -/
structure Env where
  fetch : String → Except ResolverError String
  parse : String → Except ResolverError Project

/-- Transcription of `Repository`. -/
structure Repository where
  base_url : String
deriving DecidableEq, Repr

/-- Transcription of `Resolver`.  The two `Nat` fields are ghost
instrumentation counting how many times the fetch and parse capabilities have
been invoked; the source performs those calls effectfully and has no such
counters. -/
structure Resolver where
  repository : Repository
  project_cache : List (ArtifactFqn × Project)
  nFetch : Nat
  nParse : Nat
deriving DecidableEq, Repr

/-- Transcription of `Resolver::default()` (counters start at zero). -/
def Resolver.default : Resolver :=
  { repository := { base_url := "https://repo.maven.apache.org/maven2" },
    project_cache := [], nFetch := 0, nParse := 0 }

/-- Dots-to-slashes conversion of the group id: the source's
`group_id.replace(".", "/")` with a single-character pattern and replacement
is a character map. -/
def replaceDotSlash (s : String) : String :=
  String.mk (s.data.map (fun c => if c = '.' then '/' else c))

/-- Transcription of `Resolver::create_url` (`lib.rs` lines 272-308): require
group/artifact/version/packaging in that order, then assemble
`base/group-path/artifact/version/artifact-version[-classifier].packaging`. -/
def Resolver.create_url (st : Resolver) (id : ArtifactFqn) :
    Except ResolverError String :=
  match id.group_id with
  | none => .error (ResolverError.missing_parameter id "groupId")
  | some group_id =>
  match id.artifact_id with
  | none => .error (ResolverError.missing_parameter id "artifactId")
  | some artifact_id =>
  match id.version with
  | none => .error (ResolverError.missing_parameter id "version")
  | some version =>
  match id.packaging with
  | none => .error (ResolverError.missing_parameter id "packaging")
  | some packaging =>
    let url := st.repository.base_url ++ "/" ++ replaceDotSlash group_id ++ "/"
      ++ artifact_id ++ "/" ++ version ++ "/" ++ artifact_id ++ "-" ++ version
    let url := match id.classifier with
      | some classifier => url ++ "-" ++ classifier
      | none => url
    .ok (url ++ "." ++ packaging)

/-- Transcription of the free function `normalize_gavs` (`lib.rs` lines
257-269): normalize every dependency against the parent coordinate and
re-collect under the re-derived keys (collect into a fresh map, later entries
overwriting earlier ones of the same key). -/
def normalize_gavs (dependencies : DepMap) (parent_fqn : ArtifactFqn)
    (default_packaging : String) : DepMap :=
  (dependencies.map (fun kv =>
      let dep := kv.2.normalize parent_fqn default_packaging
      (dep.get_key, dep))).foldl
    (fun acc kv => minsert acc kv.1 kv.2) []

/-- Transcription of `Resolver::fetch_project` (`lib.rs` lines 379-441).  The
state is returned alongside the result even on failure, mirroring the `&mut
self` receiver.  The cache key is the coordinate re-derived from the *parsed*
project (normalized against the parent when one is declared), not the
requested coordinate. -/
def fetch_project (env : Env) (st : Resolver) (project_id : ArtifactFqn) :
    Except RErr Project × Resolver :=
  let pid := project_id.with_packaging "pom"
  match mlookup st.project_cache pid with
  | some cached => (.ok cached, st)
  | none =>
    match st.create_url pid with
    | .error e => (.error (.resolver e), st)
    | .ok url =>
      match env.fetch url with
      | .error e => (.error (.resolver e), { st with nFetch := st.nFetch + 1 })
      | .ok text =>
        let st := { st with nFetch := st.nFetch + 1 }
        match env.parse text with
        | .error e => (.error (.resolver e), { st with nParse := st.nParse + 1 })
        | .ok project =>
          let st := { st with nParse := st.nParse + 1 }
          let pid2 := project.artifact_fqn.with_packaging "pom"
          let (pid3, project) :=
            match project.parent with
            | some parent =>
              let parent_fqn := parent.artifact_fqn.with_packaging "pom"
              ( pid2.normalize parent_fqn "pom",
                { project with
                  dependencies := normalize_gavs project.dependencies parent_fqn "jar",
                  dependency_management := project.dependency_management.map
                    (fun (dm : DependencyManagement) => { dm with
                      dependencies := normalize_gavs dm.dependencies parent_fqn "jar" }),
                  parent := some { artifact_fqn := parent_fqn } } )
            | none => (pid2, project)
          let project := { project with artifact_fqn := pid3 }
          (.ok project,
           { st with project_cache := minsert st.project_cache pid3 project })

/-- Interpolation pass over a dependency-management map (`lib.rs` lines
349-351): each value's coordinate is interpolated in place, keys unchanged;
`none` models a panic inside `interpolate`. -/
def interpDeps (deps : DepMap) (properties : List (String × String)) :
    Option DepMap :=
  match deps with
  | [] => some []
  | (k, d) :: rest =>
    match d.artifact_fqn.interpolate properties with
    | none => none
    | some fqn =>
      (interpDeps rest properties).map (fun r => (k, { d with artifact_fqn := fqn }) :: r)

/-- The BOM loop of `build_effective_pom` (`lib.rs` lines 360-373): build each
BOM's effective descriptor in turn (`build1` is the recursive
`build_effective_pom` call, passed in so that the loop is structural on the
BOM list), extend the accumulated management map with the BOM's management
entries when it has any, and thread the resolver state; the final map is
returned (the caller discards it). -/
def process_boms (build1 : Resolver → ArtifactFqn → Except RErr Project × Resolver) :
    Resolver → List Dependency → DepMap → Except RErr DepMap × Resolver
  | st, [], dm => (.ok dm, st)
  | st, bom :: rest, dm =>
    match build1 st bom.artifact_fqn with
    | (.error e, st) => (.error e, st)
    | (.ok bom_project, st) =>
      let dm :=
        match bom_project.dependency_management with
        | some bdm => mextend dm bdm.dependencies
        | none => dm
      process_boms build1 st rest dm

/-- The version-recording step of `build_effective_pom` (`lib.rs` lines
326-330): when the (pom-forced) requested coordinate carries a version, store
it into the property table under `"project.version"`.  Note the source reads
the version off the *requested* coordinate `project_id`, not off the fetched
descriptor. -/
def record_version (pid : ArtifactFqn) (project : Project) : Project :=
  match pid.version with
  | some version =>
    { project with properties := minsert project.properties "project.version" version }
  | none => project

/-- The parent-merge step of `build_effective_pom` (`lib.rs` lines 332-346):
when the descriptor has a parent reference, build the parent's effective
descriptor (`build1` is the recursive `build_effective_pom` call) and insert
every parent dependency whose key the child does not already declare. -/
def parent_merge (build1 : Resolver → ArtifactFqn → Except RErr Project × Resolver)
    (st : Resolver) (project : Project) : Except RErr Project × Resolver :=
  match project.parent with
  | none => (.ok project, st)
  | some parent =>
    match build1 st parent.artifact_fqn with
    | (.error e, st) => (.error e, st)
    | (.ok parent_project, st) =>
      let extra_deps := parent_project.dependencies.filter
        (fun kv => !(mcontains project.dependencies kv.1))
      (.ok { project with dependencies := mextend project.dependencies extra_deps }, st)

/-- The dependency-management merge of `build_effective_pom` (`lib.rs` lines
348-374), exposing the merged map that the source computes on the cloned
block: interpolate every managed entry against the project's property table,
then fold the management entries of every recursively built `"import"`-scoped
BOM into the block.  Returns `none` when the descriptor has no
dependency-management block. -/
def merged_dm_map (build1 : Resolver → ArtifactFqn → Except RErr Project × Resolver)
    (st : Resolver) (project : Project) : Except RErr (Option DepMap) × Resolver :=
  match project.dependency_management with
  | none => (.ok none, st)
  | some project_dm =>
    match interpDeps project_dm.dependencies project.properties with
    | none => (.error .panicked, st)
    | some dmDeps =>
      let boms := (dmDeps.filter
        (fun kv => kv.2.scope == some "import")).map Prod.snd
      match process_boms build1 st boms dmDeps with
      | (.error e, st) => (.error e, st)
      | (.ok dm, st) => (.ok (some dm), st)

/-- The dependency-management step as `build_effective_pom` performs it: run
the merge of `lib.rs` lines 348-374 for its errors and its state effects
(recursively fetched BOMs land in the cache) and then *drop* the merged map,
returning the project unchanged, exactly as the source's mutated clone
`project_dm` goes out of scope at line 374. -/
def dm_step (build1 : Resolver → ArtifactFqn → Except RErr Project × Resolver)
    (st : Resolver) (project : Project) : Except RErr Project × Resolver :=
  match merged_dm_map build1 st project with
  | (.error e, st) => (.error e, st)
  | (.ok _, st) => (.ok project, st)

/-- Transcription of `Resolver::build_effective_pom` (`lib.rs` lines 310-377),
with an explicit fuel for the source's unbounded recursion: force packaging to
`"pom"`, fetch, record the requested coordinate's version under
`"project.version"`, merge in parent dependencies not already declared, then
run the dependency-management pass whose merged map is dropped. -/
def build_effective_pom : Nat → Env → Resolver → ArtifactFqn →
    Except RErr Project × Resolver
  | 0, _, st, _ => (.error .outOfFuel, st)
  | fuel + 1, env, st, project_id =>
    let pid := project_id.with_packaging "pom"
    match fetch_project env st pid with
    | (.error e, st) => (.error e, st)
    | (.ok project, st) =>
      let project := record_version pid project
      match parent_merge (build_effective_pom fuel env) st project with
      | (.error e, st) => (.error e, st)
      | (.ok project, st) => dm_step (build_effective_pom fuel env) st project

/-- The merged dependency-management map of `lib.rs` lines 348-374 at a given
recursion fuel (the map the claim about step 5 refers to). -/
def step5_merged_dm (fuel : Nat) (env : Env) (st : Resolver) (project : Project) :
    Except RErr (Option DepMap) × Resolver :=
  merged_dm_map (build_effective_pom fuel env) st project


/-! Concrete scenarios used by counterexamples and witnesses. -/

/-- Build a scope-less dependency from a coordinate. -/
def depOf (fqn : ArtifactFqn) : Dependency := { artifact_fqn := fqn, scope := none }

/-- The dependency key of a coordinate. -/
def keyOf (fqn : ArtifactFqn) : DependencyKey :=
  { group_id := fqn.group_id, artifact_id := fqn.artifact_id }

/-- Extract the project of a successful result, with a fallback for the
failure case (never reached in the concrete scenarios below). -/
def okOr (r : Except RErr Project) (fallback : Project) : Project :=
  match r with
  | .ok p => p
  | .error _ => fallback

/-- The scenario of claim C6: requested child coordinate `a:child:1.0`
without packaging. -/
def fqnChild : ArtifactFqn :=
  { group_id := some "a", artifact_id := some "child", version := some "1.0",
    packaging := none, classifier := none }

/-- The parent reference declared by the child descriptor: `a:parent:1.0`. -/
def fqnParent : ArtifactFqn :=
  { group_id := some "a", artifact_id := some "parent", version := some "1.0",
    packaging := none, classifier := none }

/-- The child's version-less dependency coordinate `x:y`. -/
def fqnXY : ArtifactFqn :=
  { group_id := some "x", artifact_id := some "y", version := none,
    packaging := none, classifier := none }

/-- The parent's dependency coordinate `x:y:2.0`. -/
def fqnXY2 : ArtifactFqn :=
  { group_id := some "x", artifact_id := some "y", version := some "2.0",
    packaging := none, classifier := none }

/-- The parent's dependency coordinate `p:q:3.0`. -/
def fqnPQ : ArtifactFqn :=
  { group_id := some "p", artifact_id := some "q", version := some "3.0",
    packaging := none, classifier := none }

/-- The parsed child descriptor of the C6 scenario. -/
def childProj : Project :=
  { parent := some { artifact_fqn := fqnParent },
    artifact_fqn := fqnChild,
    dependency_management := none,
    dependencies := [(keyOf fqnXY, depOf fqnXY)],
    properties := [] }

/-- The parsed parent descriptor of the C6 scenario. -/
def parentProj : Project :=
  { parent := none,
    artifact_fqn := fqnParent,
    dependency_management := none,
    dependencies := [(keyOf fqnXY, depOf fqnXY2), (keyOf fqnPQ, depOf fqnPQ)],
    properties := [] }

/-- Capabilities serving the C6 scenario: the child and parent POM locations
resolve to marker texts that parse to the two descriptors above. -/
def envC6 : Env :=
  { fetch := fun url =>
      if url = "https://repo.maven.apache.org/maven2/a/child/1.0/child-1.0.pom" then
        .ok "child"
      else if url = "https://repo.maven.apache.org/maven2/a/parent/1.0/parent-1.0.pom" then
        .ok "parent"
      else .error (ResolverError.invalid_data url),
    parse := fun text =>
      if text = "child" then .ok childProj
      else if text = "parent" then .ok parentProj
      else .error (ResolverError.invalid_data text) }

/-- The child's `x:y` entry after fetch-time normalization against the parent
coordinate: version `"1.0"` inherited from the parent's GAV, packaging
defaulted to `"jar"`, scope defaulted to `"compile"`. -/
def xyNormalized : Dependency :=
  { artifact_fqn := { group_id := some "x", artifact_id := some "y",
                      version := some "1.0", packaging := some "jar",
                      classifier := none },
    scope := some "compile" }

/-- The full C6 run (fuel 2: child plus parent). -/
def resC6 : Except RErr Project × Resolver :=
  build_effective_pom 2 envC6 Resolver.default fqnChild

/-- The effective child descriptor of the C6 run. -/
def pC6 : Project := okOr resC6.1 childProj

/-- The resolver state after the C6 run. -/
def stFinC6 : Resolver := resC6.2

/-- The single-descriptor fetch of the child in the C6 scenario. -/
def fetchResC6 : Except RErr Project × Resolver :=
  fetch_project envC6 Resolver.default (fqnChild.with_packaging "pom")

/-- The fetched (normalized, not yet merged) child descriptor. -/
def qC6 : Project := okOr fetchResC6.1 childProj

/-- The resolver state after fetching the child. -/
def st1C6 : Resolver := fetchResC6.2

/-- The normalized parent reference carried by the fetched child. -/
def parC6 : Parent := { artifact_fqn := fqnParent.with_packaging "pom" }

/-- The parent's effective-descriptor run, from the post-fetch state. -/
def resParC6 : Except RErr Project × Resolver :=
  build_effective_pom 1 envC6 st1C6 parC6.artifact_fqn

/-- The parent's effective descriptor in the C6 scenario. -/
def ppC6 : Project := okOr resParC6.1 parentProj

/-- The resolver state after building the parent's effective descriptor. -/
def st2C6 : Resolver := resParC6.2

/-- The scenario of claim C1: requested root coordinate `a:r:1.0`. -/
def fqnRoot : ArtifactFqn :=
  { group_id := some "a", artifact_id := some "r", version := some "1.0",
    packaging := none, classifier := none }

/-- The managed dependency of the C1 root: `w:z` with the interpolatable
version `"$\x7bproject.version\x7d"`. -/
def depW : Dependency :=
  { artifact_fqn := { group_id := some "w", artifact_id := some "z",
                      version := some "$\x7bproject.version\x7d",
                      packaging := none, classifier := none },
    scope := none }

/-- The key of the C1 managed dependency. -/
def keyW : DependencyKey := { group_id := some "w", artifact_id := some "z" }

/-- The parsed management block of the C1 root descriptor. -/
def dmRawC1 : DepMap := [(keyW, depW)]

/-- The step-5 merged management map of the C1 scenario: the managed entry
with its version interpolated to the recorded `project.version`. -/
def dmMergedC1 : DepMap :=
  [(keyW, { depW with artifact_fqn := { depW.artifact_fqn with version := some "1.0" } })]

/-- The parsed root descriptor of the C1 scenario: no parent, one managed
dependency, no direct dependencies. -/
def rootProjC1 : Project :=
  { parent := none,
    artifact_fqn := fqnRoot,
    dependency_management := some { dependencies := dmRawC1 },
    dependencies := [],
    properties := [] }

/-- Capabilities serving the C1 scenario. -/
def envC1 : Env :=
  { fetch := fun url =>
      if url = "https://repo.maven.apache.org/maven2/a/r/1.0/r-1.0.pom" then .ok "root"
      else .error (ResolverError.invalid_data url),
    parse := fun text =>
      if text = "root" then .ok rootProjC1
      else .error (ResolverError.invalid_data text) }

/-- The full C1 run. -/
def resC1 : Except RErr Project × Resolver :=
  build_effective_pom 1 envC1 Resolver.default fqnRoot

/-- The effective root descriptor of the C1 run. -/
def pC1 : Project := okOr resC1.1 rootProjC1

/-- The scenario of claims C4/C5: a parser whose descriptor coordinate
differs from the requested one.  C4 requests `g:a:1.0` but the descriptor
says group `h`; C5 requests `g:a:9.9` but the descriptor says version
`1.0`. -/
def ridC4 : ArtifactFqn :=
  { group_id := some "g", artifact_id := some "a", version := some "1.0",
    packaging := none, classifier := none }

/-- The parsed descriptor of the C4 scenario: its own group is `h`, so the
cache key derived from it differs from the requested coordinate. -/
def projC4 : Project :=
  { parent := none,
    artifact_fqn := { group_id := some "h", artifact_id := some "a",
                      version := some "1.0", packaging := none, classifier := none },
    dependency_management := none,
    dependencies := [],
    properties := [] }

/-- Capabilities serving the C4 scenario. -/
def envC4 : Env :=
  { fetch := fun url =>
      if url = "https://repo.maven.apache.org/maven2/g/a/1.0/a-1.0.pom" then .ok "t4"
      else .error (ResolverError.invalid_data url),
    parse := fun text =>
      if text = "t4" then .ok projC4
      else .error (ResolverError.invalid_data text) }

/-- State after the first C4 call. -/
def st1C4 : Resolver := (fetch_project envC4 Resolver.default ridC4).2

/-- State after the second C4 call on the same coordinate. -/
def st2C4 : Resolver := (fetch_project envC4 st1C4 ridC4).2

/-- The requested coordinate of the C5 scenario: version `9.9`. -/
def ridC5 : ArtifactFqn :=
  { group_id := some "g", artifact_id := some "a", version := some "9.9",
    packaging := none, classifier := none }

/-- The parsed descriptor of the C5 scenario: its own version is `1.0`,
differing from the requested `9.9`. -/
def projC5 : Project :=
  { parent := none,
    artifact_fqn := { group_id := some "g", artifact_id := some "a",
                      version := some "1.0", packaging := none, classifier := none },
    dependency_management := none,
    dependencies := [],
    properties := [] }

/-- Capabilities serving the C5 scenario. -/
def envC5 : Env :=
  { fetch := fun url =>
      if url = "https://repo.maven.apache.org/maven2/g/a/9.9/a-9.9.pom" then .ok "t5"
      else .error (ResolverError.invalid_data url),
    parse := fun text =>
      if text = "t5" then .ok projC5
      else .error (ResolverError.invalid_data text) }

/-- The full C5 run. -/
def resC5 : Except RErr Project × Resolver :=
  build_effective_pom 1 envC5 Resolver.default ridC5

/-- The effective descriptor of the C5 run. -/
def pC5 : Project := okOr resC5.1 projC5

/-- An environment whose fetch capability always fails (C8 witness). -/
def envFail : Env :=
  { fetch := fun _ => .error (ResolverError.invalid_data "offline"),
    parse := fun _ => .error (ResolverError.invalid_data "offline") }

/-- The coordinate of the C7 witness: `com.example:lib:1.0` packaged `jar`. -/
def fqnLib : ArtifactFqn :=
  { group_id := some "com.example", artifact_id := some "lib", version := some "1.0",
    packaging := some "pom", classifier := none }

/-- The same coordinate packaged `jar` (the claim's example input). -/
def fqnLibJar : ArtifactFqn := { fqnLib with packaging := some "jar" }

/-- The single-descriptor fetch of the C1 root. -/
def fetchResC1 : Except RErr Project × Resolver :=
  fetch_project envC1 Resolver.default (fqnRoot.with_packaging "pom")

/-- The fetched root descriptor of the C1 scenario. -/
def qC1 : Project := okOr fetchResC1.1 rootProjC1

/-- The resolver state after fetching the C1 root. -/
def st1C1 : Resolver := fetchResC1.2

/-- The C4 descriptor with packaging forced to `pom`, as `fetch_project`
returns and caches it. -/
def projC4pom : Project :=
  { projC4 with artifact_fqn := { projC4.artifact_fqn with packaging := some "pom" } }

/-- A fetch of the C6 parent descriptor directly (used to exercise the
cache-hit path: its derived cache key equals the requested coordinate). -/
def fetchParRes : Except RErr Project × Resolver :=
  fetch_project envC6 Resolver.default fqnParent

/-- The fetched parent descriptor. -/
def qPar : Project := okOr fetchParRes.1 parentProj

/-- The resolver state after fetching the parent descriptor. -/
def stPar : Resolver := fetchParRes.2

/-! Generic association-list lemmas. -/

/-- Looking up the key just inserted yields the inserted value. -/
theorem mlookup_minsert_self {κ α : Type} [DecidableEq κ] (m : List (κ × α)) (k : κ) (v : α) :
    mlookup (minsert m k v) k = some v := by
  induction m with
  | nil => simp [minsert, mlookup]
  | cons kv rest ih =>
    obtain ⟨k0, v0⟩ := kv
    by_cases h0 : k0 = k
    · subst h0; simp [minsert, mlookup]
    · simp [minsert, mlookup, h0, ih]

/-- Inserting at one key leaves lookups at other keys unchanged. -/
theorem mlookup_minsert_ne {κ α : Type} [DecidableEq κ] (m : List (κ × α)) (k k' : κ) (v : α)
    (h : k' ≠ k) : mlookup (minsert m k v) k' = mlookup m k' := by
  induction m with
  | nil => simp [minsert, mlookup, Ne.symm h]
  | cons kv rest ih =>
    obtain ⟨k0, v0⟩ := kv
    by_cases h0 : k0 = k
    · subst h0
      simp [minsert, mlookup, Ne.symm h]
    · simp [minsert, mlookup, h0, ih]

/-- Extending with entries whose keys all differ from `k` leaves the lookup
at `k` unchanged. -/
theorem mlookup_mextend_not_mem {κ α : Type} [DecidableEq κ] (m extra : List (κ × α)) (k : κ)
    (h : ∀ p ∈ extra, p.1 ≠ k) : mlookup (mextend m extra) k = mlookup m k := by
  induction extra generalizing m with
  | nil => rfl
  | cons p rest ih =>
    have hp : p.1 ≠ k := h p (by simp)
    have hrest : ∀ q ∈ rest, q.1 ≠ k := fun q hq => h q (by simp [hq])
    show mlookup (mextend (minsert m p.1 p.2) rest) k = mlookup m k
    rw [ih (minsert m p.1 p.2) hrest]
    exact mlookup_minsert_ne m p.1 k p.2 (fun he => hp he.symm)

/-- When the extension map has no duplicate keys, any binding it carries wins
in the extended map. -/
theorem mlookup_mextend_of_mem {κ α : Type} [DecidableEq κ] (m extra : List (κ × α)) (k : κ)
    (v : α) (hnd : (extra.map Prod.fst).Nodup) (h : mlookup extra k = some v) :
    mlookup (mextend m extra) k = some v := by
  induction extra generalizing m with
  | nil => simp [mlookup] at h
  | cons p rest ih =>
    obtain ⟨k0, v0⟩ := p
    simp only [List.map_cons, List.nodup_cons] at hnd
    by_cases h0 : k0 = k
    · subst h0
      simp [mlookup] at h
      subst h
      show mlookup (mextend (minsert m k0 v0) rest) k0 = some v0
      rw [mlookup_mextend_not_mem]
      · exact mlookup_minsert_self m k0 v0
      · intro q hq he
        exact hnd.1 (he ▸ List.mem_map_of_mem Prod.fst hq)
    · simp [mlookup, h0] at h
      exact ih (minsert m k0 v0) hnd.2 h

/-- Lookup in a map filtered by a key predicate. -/
theorem mlookup_filter {κ α : Type} [DecidableEq κ] (l : List (κ × α)) (q : κ → Bool) (k : κ) :
    mlookup (l.filter (fun kv => q kv.1)) k = if q k then mlookup l k else none := by
  induction l with
  | nil => simp [mlookup]
  | cons p rest ih =>
    obtain ⟨k0, v0⟩ := p
    by_cases h0 : k0 = k
    · subst h0
      by_cases hq : q k0 <;> simp [List.filter, hq, mlookup, ih]
    · by_cases hq : q k0 <;> simp [List.filter, hq, mlookup, h0, ih]

/-- Filtering preserves key nodup-ness. -/
theorem nodup_keys_filter {κ α : Type} (l : List (κ × α)) (f : κ × α → Bool)
    (h : (l.map Prod.fst).Nodup) : ((l.filter f).map Prod.fst).Nodup :=
  ((l.filter_sublist).map Prod.fst).nodup h

/-! Small step lemmas about the embedded resolver. -/

/-- Forcing the packaging leaves the version untouched. -/
theorem with_packaging_version (a : ArtifactFqn) (pk : String) :
    (a.with_packaging pk).version = a.version := rfl

/-- `record_version` never changes the parent reference. -/
theorem record_version_parent (pid : ArtifactFqn) (pr : Project) :
    (record_version pid pr).parent = pr.parent := by
  unfold record_version; split <;> rfl

/-- `record_version` never changes the dependency-management block. -/
theorem record_version_dm (pid : ArtifactFqn) (pr : Project) :
    (record_version pid pr).dependency_management = pr.dependency_management := by
  unfold record_version; split <;> rfl

/-- `record_version` never changes the dependency map. -/
theorem record_version_dependencies (pid : ArtifactFqn) (pr : Project) :
    (record_version pid pr).dependencies = pr.dependencies := by
  unfold record_version; split <;> rfl

/-- When the requested coordinate has a version, `record_version` stores it
under `"project.version"`. -/
theorem record_version_properties_some (pid : ArtifactFqn) (pr : Project) (v : String)
    (hv : pid.version = some v) :
    (record_version pid pr).properties = minsert pr.properties "project.version" v := by
  unfold record_version; rw [hv]

/-- A successful `dm_step` returns the input project unchanged. -/
theorem dm_step_ok (b : Resolver → ArtifactFqn → Except RErr Project × Resolver)
    (st : Resolver) (pr p : Project) (st' : Resolver)
    (h : dm_step b st pr = (.ok p, st')) : p = pr := by
  unfold dm_step at h
  split at h
  · simp at h
  · simp only [Prod.mk.injEq, Except.ok.injEq] at h
    exact h.1.symm

/-- A successful `parent_merge` preserves every field except the dependency
map. -/
theorem parent_merge_ok_fields (b : Resolver → ArtifactFqn → Except RErr Project × Resolver)
    (st : Resolver) (pr p : Project) (st' : Resolver)
    (h : parent_merge b st pr = (.ok p, st')) :
    p.dependency_management = pr.dependency_management ∧ p.properties = pr.properties
      ∧ p.parent = pr.parent ∧ p.artifact_fqn = pr.artifact_fqn := by
  unfold parent_merge at h
  split at h
  · simp only [Prod.mk.injEq, Except.ok.injEq] at h
    rw [← h.1]
    exact ⟨rfl, rfl, rfl, rfl⟩
  · split at h
    · simp at h
    · simp only [Prod.mk.injEq, Except.ok.injEq] at h
      rw [← h.1]
      exact ⟨rfl, rfl, rfl, rfl⟩

/-- A successful `parent_merge` on a project without parent reference is the
identity. -/
theorem parent_merge_ok_none (b : Resolver → ArtifactFqn → Except RErr Project × Resolver)
    (st : Resolver) (pr p : Project) (st' : Resolver) (hp : pr.parent = none)
    (h : parent_merge b st pr = (.ok p, st')) : p = pr ∧ st' = st := by
  unfold parent_merge at h
  rw [hp] at h
  simp only [Prod.mk.injEq, Except.ok.injEq] at h
  exact ⟨h.1.symm, h.2.symm⟩

/-- A successful `parent_merge` on a project with a parent reference builds
the parent effectively and extends the dependency map with the parent
dependencies not already declared. -/
theorem parent_merge_ok_some (b : Resolver → ArtifactFqn → Except RErr Project × Resolver)
    (st : Resolver) (pr p : Project) (st' : Resolver) (par : Parent)
    (hp : pr.parent = some par) (h : parent_merge b st pr = (.ok p, st')) :
    ∃ pp st2, b st par.artifact_fqn = (.ok pp, st2) ∧ st' = st2 ∧
      p = { pr with dependencies := mextend pr.dependencies (pp.dependencies.filter (fun kv => !(mcontains pr.dependencies kv.1))) } := by
  unfold parent_merge at h
  split at h
  next hnone =>
    rw [hp] at hnone
    cases hnone
  next parent hsome =>
    rw [hp] at hsome
    injection hsome with hpar
    subst hpar
    split at h
    next e st2 heq => simp at h
    next pp st2 heq =>
      simp only [Prod.mk.injEq, Except.ok.injEq] at h
      exact ⟨pp, st2, heq, h.2.symm, h.1.symm⟩

/-- Decomposition of a successful `build_effective_pom` run into its three
stages: fetch, version-recording plus parent merge, dependency-management
step. -/
theorem build_succ_ok (n : Nat) (env : Env) (st : Resolver) (pid0 : ArtifactFqn)
    (p : Project) (st' : Resolver)
    (h : build_effective_pom (n + 1) env st pid0 = (.ok p, st')) :
    ∃ q st1 pm st2,
      fetch_project env st (pid0.with_packaging "pom") = (.ok q, st1) ∧
      parent_merge (build_effective_pom n env) st1
        (record_version (pid0.with_packaging "pom") q) = (.ok pm, st2) ∧
      dm_step (build_effective_pom n env) st2 pm = (.ok p, st') := by
  simp only [build_effective_pom] at h
  split at h
  next e st1 heq => simp at h
  next q st1 heq =>
    split at h
    next e st2 heq2 => simp at h
    next pm st2 heq2 => exact ⟨q, st1, pm, st2, heq, heq2, h⟩

/-! Claim theorems. -/

/-- C9 (confirmed): for every coordinate, parent coordinate and default
packaging, `normalize` returns a coordinate whose classifier field is absent,
even when the input coordinate itself carried a classifier. -/
theorem c9_normalize_drops_classifier (a parent : ArtifactFqn) (default_packaging : String) :
    (a.normalize parent default_packaging).classifier = none := rfl

/-- C2 (code bug): `interpolate` mixes a relative and an absolute index: the
closing-brace position is found relative to the tail starting at `"$\x7b"` but
used as an absolute index.  Consequently `"x$\x7bfoo\x7d"` with `foo` bound to
`"1.2.3"` extracts the key `"fo"` and returns the version unchanged instead of
the claimed `"x1.2.3"`; `"ab$\x7bf\x7d"` makes the source panic (the embedded
`none`); only a version whose `"$\x7b"` starts at index 0, such as
`"$\x7bfoo\x7d"`, is substituted as the claim describes. -/
theorem c2_interpolate_at_failing_inputs :
    ({ ArtifactFqn.empty with version := some "x$\x7bfoo\x7d" } : ArtifactFqn).interpolate
        [("foo", "1.2.3")]
      = some { ArtifactFqn.empty with version := some "x$\x7bfoo\x7d" }
    ∧ (some "x$\x7bfoo\x7d" : Option String) ≠ some "x1.2.3"
    ∧ ({ ArtifactFqn.empty with version := some "ab$\x7bf\x7d" } : ArtifactFqn).interpolate
        [("f", "9")] = none
    ∧ ({ ArtifactFqn.empty with version := some "$\x7bfoo\x7d" } : ArtifactFqn).interpolate
        [("foo", "1.2.3")]
      = some { ArtifactFqn.empty with version := some "1.2.3" } :=
  ⟨rfl, of_decide_eq_false rfl, rfl, rfl⟩

/-- C7 (confirmed): `create_url` succeeds exactly when group, artifact,
version and packaging are all present, producing
`base/group-path/artifact/version/artifact-version[-classifier].packaging`;
a missing field produces the "missing parameter" error naming the first
missing field (in the order groupId, artifactId, version, packaging) and the
coordinate. -/
theorem c7_create_url_spec (st : Resolver) (id : ArtifactFqn) :
    (∀ g a v pk, id.group_id = some g → id.artifact_id = some a → id.version = some v →
      id.packaging = some pk →
      st.create_url id = .ok (st.repository.base_url ++ "/" ++ replaceDotSlash g ++ "/" ++ a
        ++ "/" ++ v ++ "/" ++ a ++ "-" ++ v
        ++ (match id.classifier with | some c => "-" ++ c | none => "") ++ "." ++ pk))
    ∧ ((∃ e, st.create_url id = .error e) ↔
        (id.group_id = none ∨ id.artifact_id = none ∨ id.version = none ∨ id.packaging = none))
    ∧ (id.group_id = none →
        st.create_url id = .error (ResolverError.missing_parameter id "groupId"))
    ∧ (id.group_id ≠ none → id.artifact_id = none →
        st.create_url id = .error (ResolverError.missing_parameter id "artifactId"))
    ∧ (id.group_id ≠ none → id.artifact_id ≠ none → id.version = none →
        st.create_url id = .error (ResolverError.missing_parameter id "version"))
    ∧ (id.group_id ≠ none → id.artifact_id ≠ none → id.version ≠ none → id.packaging = none →
        st.create_url id = .error (ResolverError.missing_parameter id "packaging")) := by
  refine ⟨?_, ?_, ?_, ?_, ?_, ?_⟩
  · intro g a v pk hg ha hv hpk
    rcases hc : id.classifier with _ | c <;>
      simp [Resolver.create_url, hg, ha, hv, hpk, hc, String.append_assoc]
  · rcases hg : id.group_id with _ | g
    · simp [Resolver.create_url, hg]
    · rcases ha : id.artifact_id with _ | a
      · simp [Resolver.create_url, hg, ha]
      · rcases hv : id.version with _ | v
        · simp [Resolver.create_url, hg, ha, hv]
        · rcases hpk : id.packaging with _ | pk
          · simp [Resolver.create_url, hg, ha, hv, hpk]
          · rcases hc : id.classifier with _ | c <;>
              simp [Resolver.create_url, hg, ha, hv, hpk, hc]
  · intro hg
    simp [Resolver.create_url, hg]
  · intro hg ha
    rcases hg2 : id.group_id with _ | g
    · exact absurd hg2 hg
    · simp [Resolver.create_url, hg2, ha]
  · intro hg ha hv
    rcases hg2 : id.group_id with _ | g
    · exact absurd hg2 hg
    · rcases ha2 : id.artifact_id with _ | a
      · exact absurd ha2 ha
      · simp [Resolver.create_url, hg2, ha2, hv]
  · intro hg ha hv hpk
    rcases hg2 : id.group_id with _ | g
    · exact absurd hg2 hg
    · rcases ha2 : id.artifact_id with _ | a
      · exact absurd ha2 ha
      · rcases hv2 : id.version with _ | v
        · exact absurd hv2 hv
        · simp [Resolver.create_url, hg2, ha2, hv2, hpk]

/-- C7 witness: the claim's example coordinate, against the default
repository base. -/
theorem c7_create_url_spec_witness :
    Resolver.default.create_url fqnLibJar
      = .ok "https://repo.maven.apache.org/maven2/com/example/lib/1.0/lib-1.0.jar" := by
  have h := (c7_create_url_spec Resolver.default fqnLibJar).1 "com.example" "lib" "1.0" "jar"
    rfl rfl rfl rfl
  rw [h]
  rfl

/-- C8 (confirmed): whenever `fetch_project` fails (missing coordinate field,
fetch failure, or parse failure), the project cache is exactly as it was
before the call, so a later call for the same coordinate retries the fetch. -/
theorem c8_failure_preserves_cache (env : Env) (st : Resolver) (pid : ArtifactFqn)
    (e : RErr) (st' : Resolver)
    (h : fetch_project env st pid = (.error e, st')) :
    st'.project_cache = st.project_cache := by
  simp only [fetch_project] at h
  split at h
  next cached heq => simp at h
  next heq =>
    split at h
    next e2 heq2 =>
      simp only [Prod.mk.injEq] at h
      rw [← h.2]
    next url heq2 =>
      split at h
      next e3 heq3 =>
        simp only [Prod.mk.injEq] at h
        rw [← h.2]
      next text heq3 =>
        split at h
        next e4 heq4 =>
          simp only [Prod.mk.injEq] at h
          rw [← h.2]
        next project heq4 =>
          rcases hp : project.parent with _ | par <;> rw [hp] at h <;> simp at h

/-- C8 witness: a failing fetch leaves the (empty) cache untouched while the
ghost fetch counter records the attempted call. -/
theorem c8_failure_preserves_cache_witness :
    ({ Resolver.default with nFetch := 1 } : Resolver).project_cache
      = Resolver.default.project_cache :=
  c8_failure_preserves_cache envFail Resolver.default fqnLib
    (.resolver (ResolverError.invalid_data "offline"))
    { Resolver.default with nFetch := 1 } rfl

/-- C10 (confirmed): when the parsed descriptor has no parent reference,
`fetch_project` returns its dependencies and dependency-management entries
exactly as parsed — no scope defaulting to `"compile"`, no packaging
defaulting to `"jar"`; dependency normalization happens only under a parent
reference. -/
theorem c10_no_parent_passthrough (env : Env) (st : Resolver) (pid : ArtifactFqn)
    (url text : String) (q : Project)
    (hc : mlookup st.project_cache (pid.with_packaging "pom") = none)
    (hu : st.create_url (pid.with_packaging "pom") = .ok url)
    (hf : env.fetch url = .ok text)
    (hp : env.parse text = .ok q)
    (hnp : q.parent = none) :
    ∃ r st', fetch_project env st pid = (.ok r, st') ∧
      r.dependencies = q.dependencies ∧
      r.dependency_management = q.dependency_management := by
  refine ⟨{ q with artifact_fqn := q.artifact_fqn.with_packaging "pom" },
    { st with nFetch := st.nFetch + 1, nParse := st.nParse + 1, project_cache := minsert st.project_cache (q.artifact_fqn.with_packaging "pom") { q with artifact_fqn := q.artifact_fqn.with_packaging "pom" } },
    ?_, rfl, rfl⟩
  simp only [fetch_project, hc, hu, hf, hp, hnp]

/-- C10 witness: the parent descriptor of the C6 scenario (scope-less,
packaging-less dependencies) passes through `fetch_project` unchanged. -/
theorem c10_no_parent_passthrough_witness :
    ∃ r st', fetch_project envC6 Resolver.default fqnParent = (.ok r, st') ∧
      r.dependencies = parentProj.dependencies ∧
      r.dependency_management = parentProj.dependency_management :=
  c10_no_parent_passthrough envC6 Resolver.default fqnParent
    "https://repo.maven.apache.org/maven2/a/parent/1.0/parent-1.0.pom" "parent" parentProj
    rfl rfl rfl rfl rfl

/-- C4 (amended): when the cache already holds the pom-forced requested
coordinate — as after a successful first call whose descriptor re-derives the
same coordinate — a second `fetch_project` for it is a pure cache hit: it
returns the cached descriptor and the state unchanged (in particular the
ghost fetch/parse counters), for *any* capability environment, i.e. it
consults neither capability. -/
theorem c4_cache_hit_no_refetch (env env2 : Env) (st : Resolver) (pid : ArtifactFqn)
    (p q : Project) (st1 : Resolver)
    (_h1 : fetch_project env st pid = (.ok p, st1))
    (h2 : mlookup st1.project_cache (pid.with_packaging "pom") = some q) :
    fetch_project env2 st1 pid = (.ok q, st1) := by
  simp [fetch_project, h2]

/-- C4 witness: after fetching the C6 parent descriptor (whose re-derived
coordinate equals the request), a second fetch — even against an environment
that always fails — returns the cached descriptor with the state unchanged. -/
theorem c4_cache_hit_no_refetch_witness :
    fetch_project envFail stPar fqnParent = (.ok qPar, stPar) :=
  c4_cache_hit_no_refetch envC6 envFail Resolver.default fqnParent qPar qPar stPar rfl rfl

/-- C4 counterexample: the claim as stated is false, because the cache is
keyed by the coordinate re-derived from the *parsed* descriptor, not by the
request.  The C4 environment parses the fetched text into a descriptor whose
group is `h` while the request says `g`: both calls succeed, but the second
call misses the cache and fetches and parses again — two fetch/parse pairs,
not the claimed one — and even the post-state cache lacks the requested
coordinate. -/
theorem c4_counterexample :
    (fetch_project envC4 Resolver.default ridC4).1 = .ok projC4pom
    ∧ (fetch_project envC4 st1C4 ridC4).1 = .ok projC4pom
    ∧ mlookup st1C4.project_cache (ridC4.with_packaging "pom") = none
    ∧ st2C4.nFetch = 2 ∧ st2C4.nParse = 2
    ∧ (2 : Nat) ≠ 1
    ∧ st2C4.project_cache.length = 1 :=
  ⟨rfl, rfl, rfl, rfl, rfl, of_decide_eq_false rfl, rfl⟩

/-- C1 (amended): the dependency-management block of the `Project` returned
by `build_effective_pom` is the fetched descriptor's block *unchanged*: the
step-5 merged map (interpolated entries extended with the BOM entries) is
computed on a clone and dropped, never stored on the returned project. -/
theorem c1_returned_dm_unmerged (fuel : Nat) (env : Env) (st : Resolver)
    (pid0 : ArtifactFqn) (p : Project) (st' : Resolver) (q : Project) (st1 : Resolver)
    (hb : build_effective_pom fuel env st pid0 = (.ok p, st'))
    (hf : fetch_project env st (pid0.with_packaging "pom") = (.ok q, st1)) :
    p.dependency_management = q.dependency_management := by
  cases fuel with
  | zero => simp [build_effective_pom] at hb
  | succ n =>
    obtain ⟨q2, st1b, pm, st2, hf2, hm, hd⟩ := build_succ_ok n env st pid0 p st' hb
    rw [hf] at hf2
    simp only [Prod.mk.injEq, Except.ok.injEq] at hf2
    obtain ⟨hq, hst⟩ := hf2
    have hppm := dm_step_ok _ _ _ _ _ hd
    have hfields := parent_merge_ok_fields _ _ _ _ _ hm
    rw [hppm, hfields.1, record_version_dm, ← hq]

/-- C1 witness: in the C1 scenario the effective descriptor's management
block equals the fetched descriptor's block. -/
theorem c1_returned_dm_unmerged_witness :
    pC1.dependency_management = qC1.dependency_management :=
  c1_returned_dm_unmerged 1 envC1 Resolver.default fqnRoot pC1 resC1.2 qC1 st1C1 rfl rfl

/-- C1 counterexample: in the C1 scenario the returned project still carries
the raw block whose managed version is the uninterpolated
`"$\x7bproject.version\x7d"`, while the step-5 merged map of `lib.rs` lines
348-374 carries the interpolated `"1.0"` — the two differ, refuting the claim
that the returned `dependency_management` equals the step-5 merged map. -/
theorem c1_counterexample :
    resC1.1 = .ok pC1
    ∧ pC1.dependency_management = some { dependencies := dmRawC1 }
    ∧ (step5_merged_dm 1 envC1 resC1.2 pC1).1 = .ok (some dmMergedC1)
    ∧ dmRawC1 ≠ dmMergedC1 :=
  ⟨rfl, rfl, rfl, of_decide_eq_false rfl⟩

/-- C5 (amended): the `"project.version"` property of the returned descriptor
is the version of the pom-forced *requested* coordinate whenever that
coordinate has one — not the resolved descriptor's own version, which may
differ. -/
theorem c5_project_version_from_request (fuel : Nat) (env : Env) (st : Resolver)
    (pid0 : ArtifactFqn) (v : String) (p : Project) (st' : Resolver)
    (hv : pid0.version = some v)
    (hb : build_effective_pom fuel env st pid0 = (.ok p, st')) :
    mlookup p.properties "project.version" = some v := by
  cases fuel with
  | zero => simp [build_effective_pom] at hb
  | succ n =>
    obtain ⟨q, st1, pm, st2, hf, hm, hd⟩ := build_succ_ok n env st pid0 p st' hb
    have hppm := dm_step_ok _ _ _ _ _ hd
    have hfields := parent_merge_ok_fields _ _ _ _ _ hm
    rw [hppm, hfields.2.1, record_version_properties_some (pid0.with_packaging "pom") q v
      (by rw [with_packaging_version, hv])]
    exact mlookup_minsert_self _ _ _

/-- C5 witness: the C6 child build records the requested version `1.0`. -/
theorem c5_project_version_from_request_witness :
    mlookup pC6.properties "project.version" = some "1.0" :=
  c5_project_version_from_request 2 envC6 Resolver.default fqnChild "1.0" pC6 stFinC6 rfl rfl

/-- C5 counterexample: requesting version `9.9` of a descriptor whose own
(resolved) version is `1.0` stores `"project.version" = "9.9"`, not the
resolved descriptor's version as the claim states. -/
theorem c5_counterexample :
    resC5.1 = .ok pC5
    ∧ pC5.artifact_fqn.version = some "1.0"
    ∧ mlookup pC5.properties "project.version" = some "9.9"
    ∧ (some "9.9" : Option String) ≠ some "1.0" :=
  ⟨rfl, rfl, rfl, of_decide_eq_false rfl⟩

/-- C3 (confirmed): when the fetched child descriptor and its effective
parent both declare a dependency with the same key, the effective map holds
exactly the child's entry; every parent dependency whose key the child does
not declare is inserted unchanged.  (The no-duplicate-keys hypothesis on the
parent's dependency list is the Rust `HashMap` representation invariant.) -/
theorem c3_child_dependency_wins (n : Nat) (env : Env) (st : Resolver)
    (pid0 : ArtifactFqn) (p : Project) (st' : Resolver) (q : Project) (st1 : Resolver)
    (par : Parent) (pp : Project) (st2 : Resolver)
    (hb : build_effective_pom (n + 1) env st pid0 = (.ok p, st'))
    (hf : fetch_project env st (pid0.with_packaging "pom") = (.ok q, st1))
    (hpar : q.parent = some par)
    (hpp : build_effective_pom n env st1 par.artifact_fqn = (.ok pp, st2))
    (hnd : (pp.dependencies.map Prod.fst).Nodup) :
    (∀ k d, mlookup q.dependencies k = some d → mlookup p.dependencies k = some d)
    ∧ (∀ k d, mlookup q.dependencies k = none → mlookup pp.dependencies k = some d →
        mlookup p.dependencies k = some d) := by
  obtain ⟨q2, st1b, pm, st2b, hf2, hm, hd⟩ := build_succ_ok n env st pid0 p st' hb
  rw [hf] at hf2
  simp only [Prod.mk.injEq, Except.ok.injEq] at hf2
  obtain ⟨hq, hst⟩ := hf2
  subst hq
  subst hst
  have hprpar : (record_version (pid0.with_packaging "pom") q).parent = some par := by
    rw [record_version_parent, hpar]
  obtain ⟨pp2, st2c, hb2, hst2, hpm⟩ := parent_merge_ok_some _ _ _ _ _ par hprpar hm
  rw [hpp] at hb2
  simp only [Prod.mk.injEq, Except.ok.injEq] at hb2
  obtain ⟨hpp2, hst2c⟩ := hb2
  subst hpp2
  have hppm := dm_step_ok _ _ _ _ _ hd
  have hdeps : p.dependencies
      = mextend q.dependencies (pp.dependencies.filter (fun kv => !(mcontains q.dependencies kv.1))) := by
    rw [hppm, hpm]
    simp [record_version_dependencies]
  constructor
  · intro k d hk
    rw [hdeps, mlookup_mextend_not_mem]
    · exact hk
    · intro pr hpr he
      have hmem := List.mem_filter.mp hpr
      rw [he] at hmem
      have hck : mcontains q.dependencies k = true := by simp [mcontains, hk]
      simp [hck] at hmem
  · intro k d hk hd2
    rw [hdeps]
    apply mlookup_mextend_of_mem
    · exact nodup_keys_filter _ _ hnd
    · rw [mlookup_filter pp.dependencies (fun kk => !(mcontains q.dependencies kk)) k]
      have hck : mcontains q.dependencies k = false := by simp [mcontains, hk]
      simp [hck, hd2]

/-- C3 witness: in the C6 scenario the child keeps its own `x:y` entry and
inherits `p:q:3.0` unchanged. -/
theorem c3_child_dependency_wins_witness :
    mlookup pC6.dependencies (keyOf fqnXY) = some xyNormalized
    ∧ mlookup pC6.dependencies (keyOf fqnPQ) = some (depOf fqnPQ) := by
  have h := c3_child_dependency_wins 1 envC6 Resolver.default fqnChild pC6 stFinC6 qC6 st1C6
    parC6 ppC6 st2C6 rfl rfl rfl rfl (of_decide_eq_true rfl)
  exact ⟨h.1 (keyOf fqnXY) xyNormalized rfl, h.2 (keyOf fqnPQ) (depOf fqnPQ) rfl rfl⟩

/-- C6 (amended): in the claim's scenario the child's `x:y` entry wins by key
presence, but its version is not left absent: fetch-time normalization against
the parent coordinate fills it with the parent GAV's version `1.0` (and
packaging `jar`, scope `compile`); `p:q:3.0` is inherited unchanged. -/
theorem c6_scenario_normalized :
    resC6.1 = .ok pC6
    ∧ mlookup pC6.dependencies (keyOf fqnXY) = some xyNormalized
    ∧ mlookup pC6.dependencies (keyOf fqnPQ) = some (depOf fqnPQ) :=
  ⟨rfl, rfl, rfl⟩

/-- C6 counterexample: the effective `x:y` entry carries version `1.0`, not
the version-absent entry the claim describes. -/
theorem c6_counterexample :
    (mlookup pC6.dependencies (keyOf fqnXY)).map (fun d => d.artifact_fqn.version)
      = some (some "1.0")
    ∧ some (some "1.0") ≠ some (none : Option String) :=
  ⟨rfl, of_decide_eq_false rfl⟩

end MavenToolbox
